import Mathlib

/-!
Shallow embedding of the Spalart-Allmaras turbulence source-term kernel
of `SU2_CFD/include/numerics/turbulent/turb_sources_new.hpp`.

`su2double` is modelled as `ℝ`.  Each C++ strategy struct
(`Omega_Bsl`, `Omega_Edw`, `ft2_Bsl`, `ft2_nonzero`, `ModVort_Bsl`,
`ModVort_Edw`, `ModVort_Neg`, `r_Bsl`, `r_Edw`, `SourceTerms_Bsl`,
`SourceTerms_Neg`) becomes a function on the `CommonVariables` record,
and the template composition of `CSourceBase_TurbSA` becomes a
`StrategySelection` record dispatched by `ComputeResidual`.
-/

set_option linter.unusedVariables false

namespace SA

/-- SU2's small guard constant `EPS`. -/
def EPS : ℝ := 1e-16

/-- The read-only per-point inputs that `ComputeResidual` and the strategy
structs access through the `Base` class: `ScalarVar_i[0]`,
`ScalarVar_Grad_i[0][·]`, `V_i[idx.Density()]`,
`V_i[idx.LaminarViscosity()]`, `dist_i`, `roughness_i`, `Volume`,
`StrainMag_i`, `Vorticity_i`, the velocity-gradient rows
`PrimVar_Grad_i[idx.Velocity()+·][·]`, the rotating-frame flag and
`nDim`. -/
structure PointState where
  ScalarVar : ℝ
  ScalarVarGrad : ℕ → ℝ
  Density : ℝ
  LaminarViscosity : ℝ
  dist : ℝ
  roughness : ℝ
  Volume : ℝ
  StrainMag : ℝ
  Vorticity : ℕ → ℝ
  PrimVarGrad : ℕ → ℕ → ℝ
  rotating_frame : Bool
  nDim : ℕ

/-- The C++ `CommonVariables` struct: model constants, auxiliary functions
and helpers.  `CommonVariables model_var;` is default-initialized, so the
non-constant fields start each call with arbitrary values; the embedding
therefore threads an explicit initial record through `ComputeResidual`. -/
@[ext]
structure CommonVariables where
  cv1_3 : ℝ
  k2 : ℝ
  cb1 : ℝ
  cw2 : ℝ
  ct3 : ℝ
  ct4 : ℝ
  cw3_6 : ℝ
  cb2_sigma : ℝ
  sigma : ℝ
  cb2 : ℝ
  cw1 : ℝ
  cr1 : ℝ
  ft2 : ℝ
  d_ft2 : ℝ
  r : ℝ
  d_r : ℝ
  g : ℝ
  d_g : ℝ
  glim : ℝ
  fw : ℝ
  d_fw : ℝ
  Ji : ℝ
  d_Ji : ℝ
  S : ℝ
  Shat : ℝ
  d_Shat : ℝ
  fv1 : ℝ
  d_fv1 : ℝ
  fv2 : ℝ
  d_fv2 : ℝ
  Omega : ℝ
  dist_i_2 : ℝ
  inv_k2_d2 : ℝ
  inv_Shat : ℝ
  g_6 : ℝ
  norm2_Grad : ℝ

/-- `Omega_Bsl::get`: Omega is the norm of the 3-component vorticity. -/
noncomputable def Omega_Bsl.get (p : PointState) (mv : CommonVariables) : CommonVariables :=
  { mv with Omega := Real.sqrt (p.Vorticity 0 * p.Vorticity 0 + p.Vorticity 1 * p.Vorticity 1 +
      p.Vorticity 2 * p.Vorticity 2) }

/-- `Omega_Edw::get`: Omega is the Edwards strain-rate magnitude
`sqrt(max(Sbar, 0))`. -/
noncomputable def Omega_Edw.get (p : PointState) (mv : CommonVariables) : CommonVariables :=
  let Sbar0 := ∑ i ∈ Finset.range p.nDim, ∑ j ∈ Finset.range p.nDim,
    (p.PrimVarGrad i j + p.PrimVarGrad j i) * p.PrimVarGrad i j
  let Sbar := Sbar0 - ∑ i ∈ Finset.range p.nDim, 2.0 / 3.0 * p.PrimVarGrad i i ^ 2
  { mv with Omega := Real.sqrt (max Sbar 0.0) }

/-- `ft2_Bsl::get`: ft2 = 0, d_ft2 = 0. -/
def ft2_Bsl.get (mv : CommonVariables) : CommonVariables :=
  { mv with ft2 := 0.0, d_ft2 := 0.0 }

/-- `ft2_nonzero::get`: ft2 = ct3·exp(−ct4·Ji²), d_ft2 by the chain rule. -/
noncomputable def ft2_nonzero.get (mv : CommonVariables) : CommonVariables :=
  let xsi2 := mv.Ji ^ 2
  let ft2v := mv.ct3 * Real.exp (-mv.ct4 * xsi2)
  { mv with ft2 := ft2v, d_ft2 := -2.0 * mv.ct4 * mv.Ji * ft2v * mv.d_Ji }

/-- `ModVort_Bsl::get`. -/
noncomputable def ModVort_Bsl.get (p : PointState) (mv : CommonVariables) : CommonVariables :=
  let nue := p.ScalarVar
  let Sbar := nue * mv.fv2 * mv.inv_k2_d2
  let Shat2 := max (mv.S + Sbar) 1.0e-10
  let d_Sbar := (mv.fv2 + nue * mv.d_fv2) * mv.inv_k2_d2
  { mv with Shat := Shat2, d_Shat := if Shat2 ≤ 1.0e-10 then 0.0 else d_Sbar }

/-- `ModVort_Edw::get` (`nu` is the kinematic viscosity local of
`ComputeResidual`). -/
noncomputable def ModVort_Edw.get (p : PointState) (nu : ℝ) (mv : CommonVariables) :
    CommonVariables :=
  let Shat2 := max (max (mv.S * (1.0 / max mv.Ji 1.0e-16 + mv.fv1)) 1.0e-16) 1.0e-10
  { mv with Shat := Shat2,
            d_Shat := if Shat2 ≤ 1.0e-10 then 0.0
                      else -mv.S * mv.Ji ^ (-2 : ℤ) / nu + mv.S * mv.d_fv1 }

/-- `ModVort_Neg::get`: delegate to `ModVort_Bsl` when nue > 0, otherwise
leave the record unchanged (Shat/d_Shat stay at their incoming values). -/
noncomputable def ModVort_Neg.get (p : PointState) (mv : CommonVariables) : CommonVariables :=
  if p.ScalarVar > 0.0 then ModVort_Bsl.get p mv else mv

/-- `r_Bsl::get`: r is clamped at 10.0 and d_r is forced to 0 when the
clamp value is attained. -/
noncomputable def r_Bsl.get (p : PointState) (mv : CommonVariables) : CommonVariables :=
  let nue := p.ScalarVar
  let rv := min (nue * mv.inv_Shat * mv.inv_k2_d2) 10.0
  let drv := (mv.Shat - nue * mv.d_Shat) * mv.inv_Shat * mv.inv_Shat * mv.inv_k2_d2
  { mv with r := rv, d_r := if rv = 10.0 then 0.0 else drv }

/-- `r_Edw::get`: the clamped r is passed through tanh(·)/tanh(1); the
derivative factor (1 − tanh(r)²) is evaluated at the transformed r, and
no zero-forcing at the clamp is applied. -/
noncomputable def r_Edw.get (p : PointState) (mv : CommonVariables) : CommonVariables :=
  let nue := p.ScalarVar
  let r2 := Real.tanh (min (nue * mv.inv_Shat * mv.inv_k2_d2) 10.0) / Real.tanh 1.0
  let dr1 := (mv.Shat - nue * mv.d_Shat) * mv.inv_Shat * mv.inv_Shat * mv.inv_k2_d2
  { mv with r := r2, d_r := (1 - Real.tanh r2 ^ 2) * dr1 / Real.tanh 1.0 }

/-- Output cell of `SourceTerms_*::get`: the `Production`, `Destruction`,
`CrossProduction` and `Jacobian_i[0]` locations the C++ code writes
through pointers. -/
structure SourceOut where
  Production : ℝ
  Destruction : ℝ
  CrossProduction : ℝ
  Jacobian : ℝ

/-- `SourceTerms_Bsl::ComputeProduction`. -/
noncomputable def SourceTerms_Bsl.ComputeProduction (nue : ℝ) (mv : CommonVariables) (o : SourceOut) :
    SourceOut :=
  { o with Production := mv.cb1 * (1.0 - mv.ft2) * mv.Shat * nue,
           Jacobian := o.Jacobian + mv.cb1 * (-mv.Shat * nue * mv.d_ft2 +
             (1.0 - mv.ft2) * (nue * mv.d_Shat + mv.Shat)) }

/-- `SourceTerms_Bsl::ComputeDestruction`. -/
noncomputable def SourceTerms_Bsl.ComputeDestruction (nue : ℝ) (mv : CommonVariables) (o : SourceOut) :
    SourceOut :=
  { o with Destruction := (mv.cw1 * mv.fw - mv.cb1 * mv.ft2 / mv.k2) * nue * nue / mv.dist_i_2,
           Jacobian := o.Jacobian -
             ((mv.cw1 * mv.d_fw - mv.cb1 / mv.k2 * mv.d_ft2) * nue * nue / mv.dist_i_2 +
              (mv.cw1 * mv.fw - mv.cb1 * mv.ft2 / mv.k2) * 2.0 * nue / mv.dist_i_2) }

/-- `SourceTerms_Bsl::ComputeCrossProduction`: writes only
`CrossProduction`; no contribution to the Jacobian. -/
def SourceTerms_Bsl.ComputeCrossProduction (nue : ℝ) (mv : CommonVariables) (o : SourceOut) :
    SourceOut :=
  { o with CrossProduction := mv.cb2_sigma * mv.norm2_Grad }

/-- `SourceTerms_Bsl::get`. -/
noncomputable def SourceTerms_Bsl.get (p : PointState) (mv : CommonVariables) (o : SourceOut) : SourceOut :=
  let nue := p.ScalarVar
  SourceTerms_Bsl.ComputeCrossProduction nue mv
    (SourceTerms_Bsl.ComputeDestruction nue mv (SourceTerms_Bsl.ComputeProduction nue mv o))

/-- `SourceTerms_Neg::ComputeProduction` (the nue ≤ 0 branch). -/
noncomputable def SourceTerms_Neg.ComputeProduction (nue : ℝ) (mv : CommonVariables) (o : SourceOut) :
    SourceOut :=
  { o with Production := mv.cb1 * (1.0 - mv.ct3) * mv.S * nue,
           Jacobian := o.Jacobian + mv.cb1 * (1.0 - mv.ct3) * mv.S }

/-- `SourceTerms_Neg::ComputeDestruction` (the nue ≤ 0 branch). -/
noncomputable def SourceTerms_Neg.ComputeDestruction (nue : ℝ) (mv : CommonVariables) (o : SourceOut) :
    SourceOut :=
  { o with Destruction := mv.cw1 * nue * nue / mv.dist_i_2,
           Jacobian := o.Jacobian - 2.0 * mv.cw1 * nue / mv.dist_i_2 }

/-- `SourceTerms_Neg::ComputeCrossProduction`: same cross production as
baseline. -/
noncomputable def SourceTerms_Neg.ComputeCrossProduction (nue : ℝ) (mv : CommonVariables) (o : SourceOut) :
    SourceOut :=
  SourceTerms_Bsl.ComputeCrossProduction nue mv o

/-- `SourceTerms_Neg::get`: delegate to `SourceTerms_Bsl` when nue > 0. -/
noncomputable def SourceTerms_Neg.get (p : PointState) (mv : CommonVariables) (o : SourceOut) :
    SourceOut :=
  let nue := p.ScalarVar
  if nue > 0.0 then
    SourceTerms_Bsl.get p mv o
  else
    SourceTerms_Neg.ComputeCrossProduction nue mv
      (SourceTerms_Neg.ComputeDestruction nue mv (SourceTerms_Neg.ComputeProduction nue mv o))

/-- Template argument `Omega_class` of `CSourceBase_TurbSA`. -/
inductive OmegaKind where
  | bsl
  | edw

/-- Template argument `ft2_class`. -/
inductive Ft2Kind where
  | bsl
  | nonzero

/-- Template argument `ModVort_class`. -/
inductive ModVortKind where
  | bsl
  | edw
  | neg

/-- Template argument `r_class`. -/
inductive RKind where
  | bsl
  | edw

/-- Template argument `SourceTerms_class`. -/
inductive SourceKind where
  | bsl
  | neg

/-- One full template instantiation of `CSourceBase_TurbSA`: one variant
per strategy family, fixed at construction. -/
structure StrategySelection where
  omega : OmegaKind
  ft2 : Ft2Kind
  modvort : ModVortKind
  r : RKind
  source : SourceKind

/-- Dispatch of `Omega_class::get`. -/
noncomputable def omegaGet : OmegaKind → PointState → CommonVariables → CommonVariables
  | OmegaKind.bsl => Omega_Bsl.get
  | OmegaKind.edw => Omega_Edw.get

/-- Dispatch of `ft2_class::get`. -/
noncomputable def ft2Get : Ft2Kind → CommonVariables → CommonVariables
  | Ft2Kind.bsl => ft2_Bsl.get
  | Ft2Kind.nonzero => ft2_nonzero.get

/-- Dispatch of `ModVort_class::get`. -/
noncomputable def modVortGet : ModVortKind → PointState → ℝ → CommonVariables → CommonVariables
  | ModVortKind.bsl => fun p _ mv => ModVort_Bsl.get p mv
  | ModVortKind.edw => fun p nu mv => ModVort_Edw.get p nu mv
  | ModVortKind.neg => fun p _ mv => ModVort_Neg.get p mv

/-- Dispatch of `r_class::get`. -/
noncomputable def rGet : RKind → PointState → CommonVariables → CommonVariables
  | RKind.bsl => r_Bsl.get
  | RKind.edw => r_Edw.get

/-- Dispatch of `SourceTerms_class::get`. -/
noncomputable def sourceGet : SourceKind → PointState → CommonVariables → SourceOut → SourceOut
  | SourceKind.bsl => SourceTerms_Bsl.get
  | SourceKind.neg => SourceTerms_Neg.get

/-- Steps 6-11 of `ComputeResidual`, the body of the `dist_i > 1e-10`
block up to and including `norm2_Grad`: Ji/fv1/fv2 and their derivatives,
the ft2, modified-vorticity and damping-function strategy calls, the
fixed g/glim/fw/dfw chain, and the gradient norm. -/
noncomputable def pipelineInner (sel : StrategySelection) (p : PointState)
    (mv2 : CommonVariables) : CommonVariables :=
  let nu := p.LaminarViscosity / p.Density
  let mv3 := { mv2 with S := mv2.Omega }
  let mv4 := { mv3 with dist_i_2 := p.dist * p.dist }
  let mv5 := { mv4 with inv_k2_d2 := 1.0 / (mv4.k2 * mv4.dist_i_2) }
  let mv6 := { mv5 with Ji := p.ScalarVar / nu + mv5.cr1 * (p.roughness / (p.dist + EPS)),
                        d_Ji := 1.0 / nu }
  let Ji_2 := mv6.Ji * mv6.Ji
  let Ji_3 := Ji_2 * mv6.Ji
  let mv7 := { mv6 with fv1 := Ji_3 / (Ji_3 + mv6.cv1_3),
                        d_fv1 := 3.0 * Ji_2 * mv6.cv1_3 / (nu * (Ji_3 + mv6.cv1_3) ^ 2) }
  let mv8 := { mv7 with fv2 := 1.0 - p.ScalarVar / (nu + p.ScalarVar * mv7.fv1),
                        d_fv2 := -(1.0 / nu - Ji_2 * mv7.d_fv1) / (1.0 + mv7.Ji * mv7.fv1) ^ 2 }
  let mv9 := ft2Get sel.ft2 mv8
  let mv10 := modVortGet sel.modvort p nu mv9
  let mv11 := { mv10 with inv_Shat := 1.0 / mv10.Shat }
  let mv12 := rGet sel.r p mv11
  let mv13 := { mv12 with g := mv12.r + mv12.cw2 * (mv12.r ^ 6 - mv12.r) }
  let mv14 := { mv13 with g_6 := mv13.g ^ 6 }
  let mv15 := { mv14 with glim := ((1.0 + mv14.cw3_6) / (mv14.g_6 + mv14.cw3_6)) ^ ((1 : ℝ) / 6.0) }
  let mv16 := { mv15 with fw := mv15.g * mv15.glim }
  let mv17 := { mv16 with d_g := mv16.d_r * (1.0 + mv16.cw2 * (6.0 * mv16.r ^ 5 - 1.0)) }
  let mv18 := { mv17 with d_fw := mv17.d_g * mv17.glim * (1.0 - mv17.g_6 / (mv17.g_6 + mv17.cw3_6)) }
  { mv18 with norm2_Grad := ∑ i ∈ Finset.range p.nDim, p.ScalarVarGrad i * p.ScalarVarGrad i }

/-- The scratch record as it stands after the whole pipeline: the
vorticity strategy, the rotating-frame correction and (when the wall
guard admits it) `pipelineInner`. -/
noncomputable def pipelineState (sel : StrategySelection) (p : PointState)
    (mv0 : CommonVariables) : CommonVariables :=
  let mv1 := omegaGet sel.omega p mv0
  let mv2 := { mv1 with Omega := if p.rotating_frame then
                 mv1.Omega + 2.0 * min 0.0 (p.StrainMag - mv1.Omega)
               else mv1.Omega }
  pipelineInner sel p mv2

/-- The outputs of `CSourceBase_TurbSA::ComputeResidual`: the residual,
the three source components and `Jacobian_i[0]`. -/
structure SAResult where
  Residual : ℝ
  Production : ℝ
  Destruction : ℝ
  CrossProduction : ℝ
  Jacobian : ℝ

/-- `CSourceBase_TurbSA::ComputeResidual`.  All accumulators are reset to
0; Omega and the rotating-frame correction are computed unconditionally,
the rest of the pipeline only when `dist_i > 1e-10` (in the skipped case
the scratch state is discarded and the zero accumulators are returned, so
the guard may equivalently enclose the whole pipeline).  `AddSourceTerm`
is reset to 0 and never modified, giving the literal `+ 0.0` in the
residual. -/
noncomputable def ComputeResidual (sel : StrategySelection) (p : PointState)
    (mv0 : CommonVariables) : SAResult :=
  if p.dist > 1e-10 then
    let mvFinal := pipelineState sel p mv0
    let out := sourceGet sel.source p mvFinal ⟨0.0, 0.0, 0.0, 0.0⟩
    { Residual := (out.Production - out.Destruction + out.CrossProduction + 0.0) * p.Volume,
      Production := out.Production,
      Destruction := out.Destruction,
      CrossProduction := out.CrossProduction,
      Jacobian := out.Jacobian * p.Volume }
  else
    { Residual := 0, Production := 0, Destruction := 0,
      CrossProduction := 0, Jacobian := 0 }

/-- The all-zero scratch record (used as a concrete initial state). -/
def mvZero : CommonVariables :=
  ⟨0, 0, 0, 0, 0, 0, 0, 0, 0, 0, 0, 0, 0, 0, 0, 0, 0, 0,
   0, 0, 0, 0, 0, 0, 0, 0, 0, 0, 0, 0, 0, 0, 0, 0, 0, 0⟩

/-- A concrete interior point state (dist = 1, quiescent flow, ν̃ = 1). -/
noncomputable def ptFlow : PointState :=
  { ScalarVar := 1, ScalarVarGrad := fun _ => 0, Density := 1, LaminarViscosity := 1,
    dist := 1, roughness := 0, Volume := 1, StrainMag := 0,
    Vorticity := fun _ => 0, PrimVarGrad := fun _ _ => 0,
    rotating_frame := false, nDim := 3 }

/-- A concrete point state sitting on the wall (dist = 0). -/
noncomputable def ptWall : PointState := { ptFlow with dist := 0 }

/-- A concrete point state with a large turbulence scalar (drives r into
the 10.0 clamp). -/
noncomputable def ptR : PointState := { ptFlow with ScalarVar := 20 }

/-- A concrete point state with negative turbulence scalar. -/
noncomputable def ptNegNue : PointState := { ptFlow with ScalarVar := -1 }

/-- A concrete point state with vanishing turbulence scalar. -/
noncomputable def ptZeroNue : PointState := { ptFlow with ScalarVar := 0 }

/-- A scratch record with Shat = inv_Shat = inv_k2_d2 = 1 (and d_Shat = 0),
so that r evaluates to min(ν̃, 10). -/
noncomputable def mvR : CommonVariables :=
  { mvZero with Shat := 1, inv_Shat := 1, inv_k2_d2 := 1 }

/-- Scratch record with k2 = 1 and uninitialized Shat read as 1. -/
noncomputable def mvK2a : CommonVariables := { mvZero with k2 := 1, Shat := 1 }

/-- Scratch record with k2 = 1 and uninitialized Shat read as 2. -/
noncomputable def mvK2b : CommonVariables := { mvZero with k2 := 1, Shat := 2 }

/-- Reset every non-constant (intermediate/helper) field of the scratch
record to zero, keeping the twelve model constants. -/
def scrubInter (mv : CommonVariables) : CommonVariables :=
  { mv with ft2 := 0, d_ft2 := 0, r := 0, d_r := 0, g := 0, d_g := 0, glim := 0,
            fw := 0, d_fw := 0, Ji := 0, d_Ji := 0, S := 0, Shat := 0, d_Shat := 0,
            fv1 := 0, d_fv1 := 0, fv2 := 0, d_fv2 := 0, Omega := 0, dist_i_2 := 0,
            inv_k2_d2 := 0, inv_Shat := 0, g_6 := 0, norm2_Grad := 0 }

/-- The all-baseline strategy selection. -/
def selBsl : StrategySelection :=
  ⟨OmegaKind.bsl, Ft2Kind.bsl, ModVortKind.bsl, RKind.bsl, SourceKind.bsl⟩

/-- The negative-SA strategy selection (Negative modified vorticity and
Negative source assembly over the baseline vorticity, trip term and
damping function). -/
def selNeg : StrategySelection :=
  ⟨OmegaKind.bsl, Ft2Kind.bsl, ModVortKind.neg, RKind.bsl, SourceKind.neg⟩

/-- tanh is bounded above by 1. -/
theorem tanh_lt_one (x : ℝ) : Real.tanh x < 1 := by
  rw [Real.tanh_eq_sinh_div_cosh, div_lt_one (Real.cosh_pos x)]
  have h := Real.cosh_sub_sinh x
  have h2 := Real.exp_pos (-x)
  linarith

/-- tanh is bounded below by -1. -/
theorem neg_one_lt_tanh (x : ℝ) : -1 < Real.tanh x := by
  rw [Real.tanh_eq_sinh_div_cosh, lt_div_iff₀ (Real.cosh_pos x)]
  have h := Real.cosh_add_sinh x
  have h2 := Real.exp_pos x
  linarith

/-- tanh squared stays below 1. -/
theorem tanh_sq_lt_one (x : ℝ) : Real.tanh x ^ 2 < 1 := by
  have h1 := tanh_lt_one x
  have h2 := neg_one_lt_tanh x
  nlinarith

/-- tanh(1) is positive. -/
theorem tanh_one_pos : 0 < Real.tanh 1.0 := by
  rw [Real.tanh_eq_sinh_div_cosh]
  have h1 : (0 : ℝ) < 1.0 := by norm_num
  exact div_pos (by rwa [← Real.sinh_pos_iff] at h1) (Real.cosh_pos _)

/-- Claim C1: whenever the wall distance is at most 1e-10,
`ComputeResidual` returns Residual = 0 and Jacobian = 0, for every
strategy selection, every other input and every initial scratch state. -/
theorem C1_wall_guard_zero (sel : StrategySelection) (p : PointState)
    (mv0 : CommonVariables) (h : p.dist ≤ 1e-10) :
    (ComputeResidual sel p mv0).Residual = 0 ∧ (ComputeResidual sel p mv0).Jacobian = 0 := by
  unfold ComputeResidual
  rw [if_neg (not_lt.mpr h)]
  exact ⟨rfl, rfl⟩

/-- Witness for C1 at a concrete on-wall point. -/
theorem C1_wall_guard_zero_witness :
    (ComputeResidual selBsl ptWall mvZero).Residual = 0 ∧
      (ComputeResidual selBsl ptWall mvZero).Jacobian = 0 :=
  C1_wall_guard_zero selBsl ptWall mvZero (by norm_num [ptWall, ptFlow])

/-- Claim C10: the Omega written by either vorticity strategy is
non-negative -- baseline writes the Euclidean norm of the vorticity
vector, Edwards writes sqrt(max(Sbar, 0)), both square roots. -/
theorem C10_omega_nonneg (p : PointState) (mv : CommonVariables) :
    0 ≤ (Omega_Bsl.get p mv).Omega ∧ 0 ≤ (Omega_Edw.get p mv).Omega :=
  ⟨Real.sqrt_nonneg _, Real.sqrt_nonneg _⟩

/-- Claim C7: in every source-assembly variant the cross-production step
writes CrossProduction = cb2_sigma * norm2_Grad and leaves the Jacobian
accumulator (and the other accumulators) exactly unchanged. -/
theorem C7_cross_production_no_jacobian (nue : ℝ) (mv : CommonVariables) (o : SourceOut) :
    (SourceTerms_Bsl.ComputeCrossProduction nue mv o).CrossProduction =
        mv.cb2_sigma * mv.norm2_Grad ∧
    (SourceTerms_Bsl.ComputeCrossProduction nue mv o).Jacobian = o.Jacobian ∧
    (SourceTerms_Bsl.ComputeCrossProduction nue mv o).Production = o.Production ∧
    (SourceTerms_Bsl.ComputeCrossProduction nue mv o).Destruction = o.Destruction ∧
    (SourceTerms_Neg.ComputeCrossProduction nue mv o).CrossProduction =
        mv.cb2_sigma * mv.norm2_Grad ∧
    (SourceTerms_Neg.ComputeCrossProduction nue mv o).Jacobian = o.Jacobian ∧
    (SourceTerms_Neg.ComputeCrossProduction nue mv o).Production = o.Production ∧
    (SourceTerms_Neg.ComputeCrossProduction nue mv o).Destruction = o.Destruction :=
  ⟨rfl, rfl, rfl, rfl, rfl, rfl, rfl, rfl⟩

/-- Claim C6: the baseline damping-function variant always produces
r ≤ 10.0, and whenever the produced r equals 10.0 exactly it produces
d_r = 0. -/
theorem C6_r_clamped (p : PointState) (mv : CommonVariables) :
    (r_Bsl.get p mv).r ≤ 10.0 ∧
      ((r_Bsl.get p mv).r = 10.0 → (r_Bsl.get p mv).d_r = 0) := by
  constructor
  · simp only [r_Bsl.get]
    exact min_le_right _ _
  · intro h
    simp only [r_Bsl.get] at h ⊢
    rw [if_pos h]
    norm_num

/-- Witness for C6: with ν̃ = 20 and Shat = inv_Shat = inv_k2_d2 = 1 the
clamp is hit and d_r = 0. -/
theorem C6_r_clamped_witness : (r_Bsl.get ptR mvR).d_r = 0 :=
  (C6_r_clamped ptR mvR).2 (by
    simp only [r_Bsl.get, ptR, ptFlow, mvR, mvZero]
    norm_num [min_def])

/-- Claim C5: in the ν̃ < 0 branch the Negative source assembly produces
Production = cb1 (1-ct3) S ν̃, Destruction = cw1 ν̃²/dist², CrossProduction
= cb2_sigma ‖∇ν̃‖², accumulates Jacobian += cb1 (1-ct3) S − 2 cw1 ν̃/dist²,
and the result is unchanged by the ft2, fv1, fv2 and Shat fields. -/
theorem C5_negative_source_terms (p : PointState) (mv : CommonVariables) (o : SourceOut)
    (h : p.ScalarVar < 0.0) :
    SourceTerms_Neg.get p mv o =
      { Production := mv.cb1 * (1.0 - mv.ct3) * mv.S * p.ScalarVar,
        Destruction := mv.cw1 * p.ScalarVar * p.ScalarVar / mv.dist_i_2,
        CrossProduction := mv.cb2_sigma * mv.norm2_Grad,
        Jacobian := o.Jacobian + mv.cb1 * (1.0 - mv.ct3) * mv.S
          - 2.0 * mv.cw1 * p.ScalarVar / mv.dist_i_2 } ∧
    (∀ a b c d, SourceTerms_Neg.get p
        { mv with ft2 := a, fv1 := b, fv2 := c, Shat := d } o =
        SourceTerms_Neg.get p mv o) := by
  have hn : ¬ (p.ScalarVar > 0.0) := not_lt.mpr h.le
  constructor
  · simp only [SourceTerms_Neg.get]
    rw [if_neg hn]
    rfl
  · intro a b c d
    simp only [SourceTerms_Neg.get]
    rw [if_neg hn, if_neg hn]
    rfl

/-- Witness for C5 at ν̃ = -1 and the zero scratch record. -/
theorem C5_negative_source_terms_witness :
    SourceTerms_Neg.get ptNegNue mvZero ⟨0.0, 0.0, 0.0, 0.0⟩ =
      { Production := mvZero.cb1 * (1.0 - mvZero.ct3) * mvZero.S * ptNegNue.ScalarVar,
        Destruction := mvZero.cw1 * ptNegNue.ScalarVar * ptNegNue.ScalarVar / mvZero.dist_i_2,
        CrossProduction := mvZero.cb2_sigma * mvZero.norm2_Grad,
        Jacobian := (⟨0.0, 0.0, 0.0, 0.0⟩ : SourceOut).Jacobian
          + mvZero.cb1 * (1.0 - mvZero.ct3) * mvZero.S
          - 2.0 * mvZero.cw1 * ptNegNue.ScalarVar / mvZero.dist_i_2 } :=
  (C5_negative_source_terms ptNegNue mvZero ⟨0.0, 0.0, 0.0, 0.0⟩
    (by norm_num [ptNegNue, ptFlow])).1

/-- Counterexample to claim C3 as stated: at ν̃ = 0 the Negative
modified-vorticity variant does not delegate to baseline (the code tests
nue > 0, not nue ≥ 0) and its Shat differs from baseline's. -/
theorem C3_counterexample_zero_nue :
    (ModVort_Neg.get ptZeroNue mvZero).Shat ≠ (ModVort_Bsl.get ptZeroNue mvZero).Shat := by
  have hn : ¬ (ptZeroNue.ScalarVar > 0.0) := by norm_num [ptZeroNue, ptFlow]
  simp only [ModVort_Neg.get, ModVort_Bsl.get]
  rw [if_neg hn]
  simp only [ptZeroNue, ptFlow, mvZero]
  norm_num [max_def]

/-- Claim C3 (amended): for strictly positive ν̃ the Negative variants
delegate to the corresponding baseline variants, producing the very same
scratch record and source terms. -/
theorem C3_amended_delegation_pos (p : PointState) (mv : CommonVariables)
    (h : p.ScalarVar > 0.0) :
    ModVort_Neg.get p mv = ModVort_Bsl.get p mv ∧
    ∀ o, SourceTerms_Neg.get p mv o = SourceTerms_Bsl.get p mv o := by
  constructor
  · unfold ModVort_Neg.get
    exact if_pos h
  · intro o
    simp only [SourceTerms_Neg.get]
    rw [if_pos h]

/-- Witness for the amended C3 at ν̃ = 1. -/
theorem C3_amended_delegation_pos_witness :
    ModVort_Neg.get ptFlow mvZero = ModVort_Bsl.get ptFlow mvZero :=
  (C3_amended_delegation_pos ptFlow mvZero (by norm_num [ptFlow])).1

/-- Counterexample to claim C2 as stated: when the pre-transform r hits
the 10.0 clamp, the baseline dr is forced to 0 but the Edwards dr is not
the transform of that forced value -- it is computed from the unforced
derivative expression and is nonzero here. -/
theorem C2_counterexample_no_forcing :
    (r_Edw.get ptR mvR).d_r ≠
      (1 - Real.tanh ((r_Edw.get ptR mvR).r) ^ 2) * (r_Bsl.get ptR mvR).d_r /
        Real.tanh 1.0 := by
  have hb : (r_Bsl.get ptR mvR).d_r = 0 := by
    simp only [r_Bsl.get, ptR, ptFlow, mvR, mvZero]
    norm_num [min_def]
  rw [hb, mul_zero, zero_div]
  have he : (r_Edw.get ptR mvR).d_r =
      (1 - Real.tanh (Real.tanh 10.0 / Real.tanh 1.0) ^ 2) * 1 / Real.tanh 1.0 := by
    simp only [r_Edw.get, ptR, ptFlow, mvR, mvZero]
    norm_num [min_def]
  rw [he]
  have h1 : 0 < (1 - Real.tanh (Real.tanh 10.0 / Real.tanh 1.0) ^ 2) * 1 / Real.tanh 1.0 := by
    apply div_pos
    · have := tanh_sq_lt_one (Real.tanh 10.0 / Real.tanh 1.0)
      nlinarith
    · exact tanh_one_pos
  exact ne_of_gt h1

/-- Claim C2 (amended): the Edwards variant computes r as the tanh
transform of the baseline r, and computes dr from the raw baseline
derivative expression (without the force-to-zero at the 10.0 clamp),
with the (1 - tanh(r)²) factor evaluated at the already-transformed r. -/
theorem C2_amended_edwards_r (p : PointState) (mv : CommonVariables) :
    (r_Edw.get p mv).r = Real.tanh ((r_Bsl.get p mv).r) / Real.tanh 1.0 ∧
    (r_Edw.get p mv).d_r =
      (1 - Real.tanh ((r_Edw.get p mv).r) ^ 2) *
        ((mv.Shat - p.ScalarVar * mv.d_Shat) * mv.inv_Shat * mv.inv_Shat * mv.inv_k2_d2) /
        Real.tanh 1.0 :=
  ⟨rfl, rfl⟩

/-- The pipeline scratch state ignores the cell volume. -/
theorem pipelineState_volume (sel : StrategySelection) (p : PointState) (v : ℝ)
    (mv0 : CommonVariables) :
    pipelineState sel { p with Volume := v } mv0 = pipelineState sel p mv0 := by
  obtain ⟨ok, fk, mk, rk, sk⟩ := sel
  cases ok <;> cases mk <;> cases rk <;>
    dsimp only [pipelineState, pipelineInner, omegaGet, ft2Get, modVortGet, rGet,
      Omega_Bsl.get, Omega_Edw.get, ft2_Bsl.get, ft2_nonzero.get, ModVort_Bsl.get,
      ModVort_Edw.get, ModVort_Neg.get, r_Bsl.get, r_Edw.get]

/-- The source-assembly strategies ignore the cell volume. -/
theorem sourceGet_volume (sk : SourceKind) (p : PointState) (v : ℝ) (mv : CommonVariables)
    (o : SourceOut) : sourceGet sk { p with Volume := v } mv o = sourceGet sk p mv o := by
  cases sk <;> rfl

/-- Claim C8: Residual and Jacobian scale linearly with the cell volume
(all else fixed), and the returned Residual is
(Production - Destruction + CrossProduction + 0) * Volume. -/
theorem C8_volume_linearity (sel : StrategySelection) (p : PointState) (mv0 : CommonVariables)
    (c : ℝ) :
    (ComputeResidual sel { p with Volume := c * p.Volume } mv0).Residual
        = c * (ComputeResidual sel p mv0).Residual ∧
    (ComputeResidual sel { p with Volume := c * p.Volume } mv0).Jacobian
        = c * (ComputeResidual sel p mv0).Jacobian ∧
    (ComputeResidual sel p mv0).Residual =
      ((ComputeResidual sel p mv0).Production - (ComputeResidual sel p mv0).Destruction
        + (ComputeResidual sel p mv0).CrossProduction + 0.0) * p.Volume := by
  have hps := pipelineState_volume sel p (c * p.Volume) mv0
  have hsg := sourceGet_volume sel.source p (c * p.Volume)
  simp only [ComputeResidual, hps, hsg]
  split_ifs with hd
  · exact ⟨by ring, by ring, rfl⟩
  · refine ⟨by norm_num, by norm_num, by norm_num⟩

/-- Claim C9: with the Negative modified-vorticity and Negative
source-assembly variants and ν̃ ≤ 0, the returned result does not depend
on the (unset) Shat and d_Shat scratch fields. -/
theorem C9_shat_independence (ok : OmegaKind) (fk : Ft2Kind) (rk : RKind)
    (p : PointState) (mv0 : CommonVariables) (a b : ℝ) (h : p.ScalarVar ≤ 0.0) :
    ComputeResidual ⟨ok, fk, ModVortKind.neg, rk, SourceKind.neg⟩ p
        { mv0 with Shat := a, d_Shat := b }
      = ComputeResidual ⟨ok, fk, ModVortKind.neg, rk, SourceKind.neg⟩ p mv0 := by
  have hn : ¬ (p.ScalarVar > 0.0) := not_lt.mpr h
  cases ok <;> cases fk <;> cases rk <;>
    simp [ComputeResidual, pipelineState, pipelineInner, omegaGet, ft2Get, modVortGet,
      rGet, sourceGet, ModVort_Neg.get, SourceTerms_Neg.get, hn,
      Omega_Bsl.get, Omega_Edw.get, ft2_Bsl.get, ft2_nonzero.get, ModVort_Bsl.get,
      r_Bsl.get, r_Edw.get, SourceTerms_Neg.ComputeProduction,
      SourceTerms_Neg.ComputeDestruction, SourceTerms_Neg.ComputeCrossProduction,
      SourceTerms_Bsl.ComputeCrossProduction]

/-- Witness for C9: concrete junk values 7 and 9 in Shat/d_Shat do not
change the result at ν̃ = -1. -/
theorem C9_shat_independence_witness :
    ComputeResidual ⟨OmegaKind.bsl, Ft2Kind.bsl, ModVortKind.neg, RKind.bsl, SourceKind.neg⟩
        ptNegNue { mvZero with Shat := 7, d_Shat := 9 }
      = ComputeResidual ⟨OmegaKind.bsl, Ft2Kind.bsl, ModVortKind.neg, RKind.bsl, SourceKind.neg⟩
        ptNegNue mvZero :=
  C9_shat_independence OmegaKind.bsl Ft2Kind.bsl RKind.bsl ptNegNue mvZero 7 9
    (by norm_num [ptNegNue, ptFlow])

/-- Counterexample to claim C4 as stated: in the Negative stack with
ν̃ = -1 the damping-function step reads Shat without any strategy having
written it -- two runs differing only in the initial (uninitialized) Shat
produce different r. -/
theorem C4_counterexample_shat_unwritten :
    (pipelineState selNeg ptNegNue mvK2a).r ≠ (pipelineState selNeg ptNegNue mvK2b).r := by
  norm_num [selNeg, pipelineState, pipelineInner, omegaGet, ft2Get, modVortGet, rGet,
    ModVort_Neg.get, r_Bsl.get, ft2_Bsl.get, Omega_Bsl.get, ptNegNue, ptFlow, mvK2a, mvK2b,
    mvZero, EPS, min_def]

/-- Claim C4 (amended): except for Shat/d_Shat in the Negative
modified-vorticity branch with ν̃ ≤ 0, every intermediate field is written
before it is read: for every strategy combination (with ν̃ > 0 required
only when the Negative modified vorticity is selected), both the final
scratch state and the returned result are unchanged when all intermediate
fields start from zero instead of arbitrary values. -/
theorem C4_amended_write_before_read (sel : StrategySelection) (p : PointState)
    (mv0 : CommonVariables) (h : sel.modvort = ModVortKind.neg → p.ScalarVar > 0.0) :
    pipelineState sel p (scrubInter mv0) = pipelineState sel p mv0 ∧
      ComputeResidual sel p (scrubInter mv0) = ComputeResidual sel p mv0 := by
  obtain ⟨ok, fk, mk, rk, sk⟩ := sel
  cases mk with
  | bsl =>
      constructor
      · cases ok <;> cases fk <;> cases rk <;>
          dsimp only [pipelineState, pipelineInner, omegaGet, ft2Get, modVortGet, rGet,
            Omega_Bsl.get, Omega_Edw.get, ft2_Bsl.get, ft2_nonzero.get, ModVort_Bsl.get,
            r_Bsl.get, r_Edw.get, scrubInter]
      · cases ok <;> cases fk <;> cases rk <;> cases sk <;>
          dsimp only [ComputeResidual, pipelineState, pipelineInner, omegaGet, ft2Get,
            modVortGet, rGet, sourceGet, Omega_Bsl.get, Omega_Edw.get, ft2_Bsl.get,
            ft2_nonzero.get, ModVort_Bsl.get, r_Bsl.get, r_Edw.get, SourceTerms_Bsl.get,
            SourceTerms_Bsl.ComputeProduction, SourceTerms_Bsl.ComputeDestruction,
            SourceTerms_Bsl.ComputeCrossProduction, SourceTerms_Neg.get,
            SourceTerms_Neg.ComputeProduction, SourceTerms_Neg.ComputeDestruction,
            SourceTerms_Neg.ComputeCrossProduction, scrubInter]
  | edw =>
      constructor
      · cases ok <;> cases fk <;> cases rk <;>
          dsimp only [pipelineState, pipelineInner, omegaGet, ft2Get, modVortGet, rGet,
            Omega_Bsl.get, Omega_Edw.get, ft2_Bsl.get, ft2_nonzero.get, ModVort_Edw.get,
            r_Bsl.get, r_Edw.get, scrubInter]
      · cases ok <;> cases fk <;> cases rk <;> cases sk <;>
          dsimp only [ComputeResidual, pipelineState, pipelineInner, omegaGet, ft2Get,
            modVortGet, rGet, sourceGet, Omega_Bsl.get, Omega_Edw.get, ft2_Bsl.get,
            ft2_nonzero.get, ModVort_Edw.get, r_Bsl.get, r_Edw.get, SourceTerms_Bsl.get,
            SourceTerms_Bsl.ComputeProduction, SourceTerms_Bsl.ComputeDestruction,
            SourceTerms_Bsl.ComputeCrossProduction, SourceTerms_Neg.get,
            SourceTerms_Neg.ComputeProduction, SourceTerms_Neg.ComputeDestruction,
            SourceTerms_Neg.ComputeCrossProduction, scrubInter]
  | neg =>
      have hpos : p.ScalarVar > 0.0 := h rfl
      have hmvn : ∀ mv, ModVort_Neg.get p mv = ModVort_Bsl.get p mv := fun mv => if_pos hpos
      constructor
      · cases ok <;> cases fk <;> cases rk <;>
          (dsimp only [pipelineState, pipelineInner, omegaGet, ft2Get, modVortGet, rGet,
             Omega_Bsl.get, Omega_Edw.get, ft2_Bsl.get, ft2_nonzero.get,
             r_Bsl.get, r_Edw.get, scrubInter];
           simp only [hmvn];
           dsimp only [ModVort_Bsl.get])
      · cases ok <;> cases fk <;> cases rk <;> cases sk <;>
          (dsimp only [ComputeResidual, pipelineState, pipelineInner, omegaGet, ft2Get,
             modVortGet, rGet, sourceGet, Omega_Bsl.get, Omega_Edw.get, ft2_Bsl.get,
             ft2_nonzero.get, r_Bsl.get, r_Edw.get, SourceTerms_Bsl.get,
             SourceTerms_Bsl.ComputeProduction, SourceTerms_Bsl.ComputeDestruction,
             SourceTerms_Bsl.ComputeCrossProduction, SourceTerms_Neg.get,
             SourceTerms_Neg.ComputeProduction, SourceTerms_Neg.ComputeDestruction,
             SourceTerms_Neg.ComputeCrossProduction, scrubInter];
           simp only [hmvn];
           dsimp only [ModVort_Bsl.get])

/-- Witness for the amended C4 with the Negative stack at ν̃ = 1. -/
theorem C4_amended_write_before_read_witness :
    pipelineState selNeg ptFlow (scrubInter mvR) = pipelineState selNeg ptFlow mvR ∧
      ComputeResidual selNeg ptFlow (scrubInter mvR) = ComputeResidual selNeg ptFlow mvR :=
  C4_amended_write_before_read selNeg ptFlow mvR (fun _ => by norm_num [ptFlow])

end SA
